import Mathlib

/-!
Verification of the back-office property dashboard
(`src/project/src/pages/backoffice/Properties.tsx`).

The component is shallowly embedded: each remote query outcome is a
`QueryRes` value (`data` or `error`, mirroring the `{ data, error }`
records returned by the remote client), JavaScript numbers are rationals
with `Option` marking `NaN` where it can arise, and the two loaders
(`loadProperties`, `loadPropertyDetails`) are pure functions from query
outcomes and prior component state to the resulting component state.
-/

namespace KostProps

/-- Result of one remote query: `data` is `null` (`none`) or a value,
`error` is `null` (`none`) or an error. Mirrors the `{ data, error }`
destructuring used throughout the component. -/
structure QueryRes (α : Type) where
  data : Option α
  error : Option String

/-- A calendar date, modelling the `Date` values compared in the payment
filters (`new Date(p.date)`, `new Date(y, m, 1)`).  Chronological order on
dates is lexicographic on (year, month, day). -/
structure SimpleDate where
  y : Int
  m : Int
  d : Int
deriving DecidableEq

/-- Chronological `a <= b` on dates (the `paymentDate >= monthStart`
comparison, which compares the underlying time values). -/
def dateLe (a b : SimpleDate) : Bool :=
  decide (a.y < b.y) ||
    (decide (a.y = b.y) &&
      (decide (a.m < b.m) || (decide (a.m = b.m) && decide (a.d ≤ b.d))))

/-- A row of the `rooms` table (the fields the component reads). -/
structure Room where
  status : String
  price : ℚ
deriving DecidableEq

/-- A row of the `tenants` table; the start/end dates are kept as the
year/month pairs the code extracts with `getFullYear`/`getMonth`. -/
structure Tenant where
  status : String
  start_year : Int
  start_month : Int
  end_year : Int
  end_month : Int
deriving DecidableEq

/-- A row of the `payments` table (the fields the component reads). -/
structure Payment where
  status : String
  amount : ℚ
  date : Option SimpleDate
  created_at : Int
deriving DecidableEq

/-- A row of the `maintenance_requests` table. -/
structure MaintReq where
  status : String
  priority : String
deriving DecidableEq

/-- A row of the `properties` table (`select('*')`). -/
structure PropertyRow where
  id : String
  name : String
  address : String
  city : String
  phone : String
  email : String
  owner_id : String
  created_at : String
  updated_at : String
deriving DecidableEq

/-- A row of the `backoffice_users` cross-reference as selected by the
list loader: `select('user_id, role')` — note there is no `email`
column in this selection. -/
structure BUser where
  user_id : String
  role : String
deriving DecidableEq

/-- The derived `PropertyStats` record (interface `PropertyStats`).
Fields that the code can set to `NaN` are `Option`-typed with `none`
standing for `NaN`; all other numeric fields are exact rationals or
integers. -/
structure PropertyStats where
  id : String
  total_revenue : ℚ
  total_tenants : Nat
  total_rooms : Nat
  occupied_rooms : Nat
  occupancy_rate : Int
  pending_payments : ℚ
  monthly_revenue : ℚ
  yearly_revenue : ℚ
  maintenance_costs : ℚ
  avg_room_price : ℚ
  payment_collection_rate : ℚ
  overdue_payments : ℚ
  avg_tenant_stay : Int
  tenant_turnover_rate : Option Int
  maintenance_requests_open : Nat
  maintenance_requests_total : Nat
deriving DecidableEq

/-- The `PropertyDetails` interface: a property row plus the optional
owner fields and child data attached by the loaders. -/
structure PropertyDetails where
  id : String
  name : String
  address : String
  city : String
  phone : String
  email : String
  owner_id : String
  owner_email : Option String
  owner_name : Option String
  stats : Option PropertyStats
  rooms : Option (List Room)
  tenants : Option (List Tenant)
  payments : Option (List Payment)
  created_at : String
  updated_at : String
deriving DecidableEq

/-! ### JavaScript helpers

`jsOr*` model the `x || d` fallback: the default is taken when `x` is
falsy (`undefined`/`null` = `none`, the number `0`, `NaN` = `none`, the
empty string).  `jsRound` is `Math.round` (half-up), and `jsDivNat`
models division where a zero denominator only ever occurs together with
a zero (or `undefined`) numerator in this component, producing `NaN`
(`none`). -/

/-- `x || d` for a possibly-`undefined`/`NaN` number (`none` falsy, `0` falsy). -/
def jsOrQ (x : Option ℚ) (d : ℚ) : ℚ :=
  match x with
  | none => d
  | some v => if v = 0 then d else v

/-- `n || d` for a nonnegative count (`0` falsy). -/
def jsOrNat (n : Nat) (d : Nat) : Nat :=
  if n = 0 then d else n

/-- `x || d` for a possibly-`undefined` string (the empty string is falsy). -/
def jsOrStr (x : Option String) (d : String) : String :=
  match x with
  | none => d
  | some s => if s = "" then d else s

/-- `Math.round`: round half towards positive infinity. -/
def jsRound (q : ℚ) : Int :=
  ⌊q + 1/2⌋

/-- `s / t` where `s` may be `undefined` (`none`).  In this component a
zero denominator only occurs with numerator `0` or `undefined`, i.e. the
JavaScript result is `NaN`, modelled as `none`. -/
def jsDivNat (x : Option ℚ) (t : Nat) : Option ℚ :=
  match x with
  | none => none
  | some s => if t = 0 then none else some (s / (t : ℚ))

/-! ### Per-property aggregations (the body of the stats loop) -/

/-- `rooms?.length || 0`. -/
def totalRooms (rooms : Option (List Room)) : Nat :=
  (rooms.getD []).length

/-- `rooms?.filter(r => r.status === 'occupied').length || 0`. -/
def occupiedRooms (rooms : Option (List Room)) : Nat :=
  ((rooms.getD []).filter (fun r => decide (r.status = "occupied"))).length

/-- `totalRooms > 0 ? Math.round((occupiedRooms / totalRooms) * 100) : 0`. -/
def occupancyRate (rooms : Option (List Room)) : Int :=
  if totalRooms rooms > 0 then
    jsRound (((occupiedRooms rooms : ℚ) / (totalRooms rooms : ℚ)) * 100)
  else 0

/-- `rooms?.reduce((sum, room) => sum + Number(room.price), 0)`. -/
def roomPriceSum (rooms : Option (List Room)) : Option ℚ :=
  rooms.map (fun rs => rs.foldl (fun s r => s + r.price) 0)

/-- `rooms?.reduce(...) / totalRooms || 0`. -/
def avgRoomPrice (rooms : Option (List Room)) : ℚ :=
  jsOrQ (jsDivNat (roomPriceSum rooms) (totalRooms rooms)) 0

/-- `tenants?.filter(t => t.status === 'active') || []`. -/
def activeTenants (tenants : Option (List Tenant)) : List Tenant :=
  (tenants.getD []).filter (fun t => decide (t.status = "active"))

/-- Month difference
`(end.getFullYear() - start.getFullYear()) * 12 + end.getMonth() - start.getMonth()`. -/
def tenantMonths (t : Tenant) : Int :=
  (t.end_year - t.start_year) * 12 + t.end_month - t.start_month

/-- `activeTenants.reduce((sum, t) => sum + months, 0) / (activeTenants.length || 1)`. -/
def avgTenantStay (tenants : Option (List Tenant)) : ℚ :=
  ((activeTenants tenants).foldl (fun s t => s + (tenantMonths t : ℚ)) 0) /
    ((jsOrNat (activeTenants tenants).length 1 : ℚ))

/-- `historicalTenants ? (historicalTenants.length / (historicalTenants.length
+ activeTenants.length)) * 100 : 0`.  A non-null array is truthy even when
empty, so the `0` branch is only taken for a `null` result; a zero
denominator gives `0/0 = NaN` (`none`). -/
def turnoverRate (hist : Option (List Tenant)) (tenants : Option (List Tenant)) : Option ℚ :=
  match hist with
  | none => some 0
  | some h =>
    if h.length + (activeTenants tenants).length = 0 then none
    else some (((h.length : ℚ) / ((h.length : ℚ) + ((activeTenants tenants).length : ℚ))) * 100)

/-- First day of the month of `now`: `new Date(now.getFullYear(), now.getMonth(), 1)`. -/
def monthStart (now : SimpleDate) : SimpleDate :=
  ⟨now.y, now.m, 1⟩

/-- January the first of the year of `now`: `new Date(now.getFullYear(), 0, 1)`
(month index 0 is January; months are 1-based in this model). -/
def yearStart (now : SimpleDate) : SimpleDate :=
  ⟨now.y, 1, 1⟩

/-- `payments?.filter(p => p.date && new Date(p.date) >= monthStart) || []`. -/
def monthlyPayments (now : SimpleDate) (payments : Option (List Payment)) : List Payment :=
  (payments.getD []).filter (fun p =>
    match p.date with
    | some d => dateLe (monthStart now) d
    | none => false)

/-- `payments?.filter(p => p.date && new Date(p.date) >= yearStart) || []`. -/
def yearlyPayments (now : SimpleDate) (payments : Option (List Payment)) : List Payment :=
  (payments.getD []).filter (fun p =>
    match p.date with
    | some d => dateLe (yearStart now) d
    | none => false)

/-- `ps.reduce((sum, p) => p.status === st ? sum + Number(p.amount) : sum, 0)`. -/
def sumByStatus (st : String) (ps : List Payment) : ℚ :=
  ps.foldl (fun s p => if p.status = st then s + p.amount else s) 0

/-- `payments?.reduce((sum, p) => p.status === 'paid' ? sum + amount : sum, 0) || 0`. -/
def totalRevenue (payments : Option (List Payment)) : ℚ :=
  jsOrQ (payments.map (sumByStatus "paid")) 0

/-- `monthlyPayments.reduce((sum, p) => p.status === 'paid' ? sum + amount : sum, 0)`. -/
def monthlyRevenue (now : SimpleDate) (payments : Option (List Payment)) : ℚ :=
  sumByStatus "paid" (monthlyPayments now payments)

/-- `yearlyPayments.reduce((sum, p) => p.status === 'paid' ? sum + amount : sum, 0)`. -/
def yearlyRevenue (now : SimpleDate) (payments : Option (List Payment)) : ℚ :=
  sumByStatus "paid" (yearlyPayments now payments)

/-- `payments?.reduce((sum, p) => p.status === 'pending' ? sum + amount : sum, 0) || 0`. -/
def pendingPayments (payments : Option (List Payment)) : ℚ :=
  jsOrQ (payments.map (sumByStatus "pending")) 0

/-- `payments?.reduce((sum, p) => p.status === 'overdue' ? sum + amount : sum, 0) || 0`. -/
def overduePayments (payments : Option (List Payment)) : ℚ :=
  jsOrQ (payments.map (sumByStatus "overdue")) 0

/-- `payments?.length || 0`. -/
def totalPayments (payments : Option (List Payment)) : Nat :=
  (payments.getD []).length

/-- `payments?.filter(p => p.status === 'paid').length || 0`. -/
def paidPayments (payments : Option (List Payment)) : Nat :=
  ((payments.getD []).filter (fun p => decide (p.status = "paid"))).length

/-- `totalPayments > 0 ? (paidPayments / totalPayments) * 100 : 0`. -/
def paymentCollectionRate (payments : Option (List Payment)) : ℚ :=
  if totalPayments payments > 0 then
    ((paidPayments payments : ℚ) / (totalPayments payments : ℚ)) * 100
  else 0

/-- `maintenanceRequests?.filter(r => r.status === 'pending' || r.status ===
'in-progress').length || 0`. -/
def openRequests (maint : Option (List MaintReq)) : Nat :=
  ((maint.getD []).filter (fun r => decide (r.status = "pending") || decide (r.status = "in-progress"))).length

/-- `maintenanceRequests?.reduce((sum, r) => sum + estimatedCost, 0) || 0`
with the fixed-tier estimate keyed by priority. -/
def maintenanceCosts (maint : Option (List MaintReq)) : ℚ :=
  jsOrQ
    (maint.map (fun ms => ms.foldl
      (fun s r => s +
        (if r.priority = "high" then (1000000 : ℚ)
         else if r.priority = "medium" then 500000
         else 250000)) 0))
    0

/-- The five per-property child query outcomes issued inside the stats
loop for one property id: rooms, tenants, the separate inactive-tenant
query, payments, and maintenance requests. -/
structure ChildRes where
  rooms : QueryRes (List Room)
  tenants : QueryRes (List Tenant)
  hist : QueryRes (List Tenant)
  payments : QueryRes (List Payment)
  maint : QueryRes (List MaintReq)

/-- One iteration of the stats loop: builds `stats[property.id]` from the
`data` fields of the five child queries.  The `error` fields of these
queries are never inspected by the code, so they do not appear here. -/
def computeStats (now : SimpleDate) (pid : String) (c : ChildRes) : PropertyStats :=
  { id := pid
    total_revenue := totalRevenue c.payments.data
    monthly_revenue := monthlyRevenue now c.payments.data
    yearly_revenue := yearlyRevenue now c.payments.data
    total_tenants := (activeTenants c.tenants.data).length
    total_rooms := totalRooms c.rooms.data
    occupied_rooms := occupiedRooms c.rooms.data
    occupancy_rate := occupancyRate c.rooms.data
    pending_payments := pendingPayments c.payments.data
    maintenance_costs := maintenanceCosts c.maint.data
    avg_room_price := avgRoomPrice c.rooms.data
    payment_collection_rate := paymentCollectionRate c.payments.data
    overdue_payments := overduePayments c.payments.data
    avg_tenant_stay := jsRound (avgTenantStay c.tenants.data)
    tenant_turnover_rate := (turnoverRate c.hist.data c.tenants.data).map jsRound
    maintenance_requests_open := openRequests c.maint.data
    maintenance_requests_total := (c.maint.data.getD []).length }

/-! ### List loader -/

/-- Owner mapping for one property row:
`backofficeUsers?.find(u => u.user_id === property.owner_id)` and the
spread.  The cross-reference selection has no `email` column, so
`backofficeUser?.email` is `undefined` (`none`). -/
def withOwner (users : Option (List BUser)) (p : PropertyRow) : PropertyDetails :=
  let bu := (users.getD []).find? (fun u => decide (u.user_id = p.owner_id))
  { id := p.id, name := p.name, address := p.address, city := p.city
    phone := p.phone, email := p.email, owner_id := p.owner_id
    owner_email := some (jsOrStr none "Unknown")
    owner_name := some (jsOrStr (bu.map (fun u => u.role)) "Unknown")
    stats := none, rooms := none, tenants := none, payments := none
    created_at := p.created_at, updated_at := p.updated_at }

/-- The component state touched by the list loader: `properties`,
`propertyStats` (object keyed by property id, modelled as a lookup
function), `error` and `isLoading`. -/
structure LoadState where
  properties : List PropertyDetails
  stats : String → Option PropertyStats
  error : Option String
  isLoading : Bool

/-- Initial component state (`useState` initialisers). -/
def initialLoadState : LoadState :=
  ⟨[], fun _ => none, none, true⟩

/-- `loadProperties`: an error in the `properties` or `backoffice_users`
query throws to the catch block, which sets the generic message and
leaves the previously stored list and stats untouched.  Otherwise the
owner-mapped list and the stats record computed by the loop are
committed, whatever the outcomes of the per-property child queries
(whose `error` fields the loop ignores). -/
def loadProperties (now : SimpleDate) (init : LoadState)
    (propsRes : QueryRes (List PropertyRow)) (usersRes : QueryRes (List BUser))
    (fetch : String → ChildRes) : LoadState :=
  match propsRes.error with
  | some _ => { init with error := some "Failed to load properties", isLoading := false }
  | none =>
    match usersRes.error with
    | some _ => { init with error := some "Failed to load properties", isLoading := false }
    | none =>
      let propertiesData := propsRes.data.getD []
      { properties := propertiesData.map (withOwner usersRes.data)
        stats := fun pid =>
          if propertiesData.any (fun p => decide (p.id = pid)) then
            some (computeStats now pid (fetch pid))
          else none
        error := none
        isLoading := false }

/-! ### Detail loader -/

/-- The joined `users` record of the detail query
(`users!properties_owner_id_fkey(email, raw_user_meta_data)`); the
`name` key of the metadata may be absent. -/
structure UserJoin where
  email : Option String
  meta_name : Option String
deriving DecidableEq

/-- The single row returned by the detail property query. -/
structure DetailRow where
  id : String
  name : String
  address : String
  city : String
  phone : String
  email : String
  owner_id : String
  created_at : String
  updated_at : String
  users : Option UserJoin

/-- The four query outcomes of `loadPropertyDetails`. -/
structure DetailQueries where
  property : QueryRes DetailRow
  rooms : QueryRes (List Room)
  tenants : QueryRes (List Tenant)
  payments : QueryRes (List Payment)

/-- The component state touched by the detail loader. -/
structure DetailState where
  selectedProperty : Option PropertyDetails
  error : Option String
  isLoading : Bool

/-- `loadPropertyDetails`: the four queries are awaited in order and each
error throws to the catch block, which sets the generic message and
clears the selection; on success the record is assembled with the stats
entry looked up from the previously stored `propertyStats`.  A `null`
property row also lands in the catch block (reading `.users` on `null`
throws before the record is assembled). -/
def loadPropertyDetails (statsMap : String → Option PropertyStats) (pid : String)
    (q : DetailQueries) (_init : DetailState) : DetailState :=
  if q.property.error.isSome then
    ⟨none, some "Failed to load property details", false⟩
  else if q.rooms.error.isSome then
    ⟨none, some "Failed to load property details", false⟩
  else if q.tenants.error.isSome then
    ⟨none, some "Failed to load property details", false⟩
  else if q.payments.error.isSome then
    ⟨none, some "Failed to load property details", false⟩
  else
    match q.property.data with
    | none => ⟨none, some "Failed to load property details", false⟩
    | some row =>
      let mn := row.users.bind (fun u => u.meta_name)
      let em := row.users.bind (fun u => u.email)
      ⟨some
        { id := row.id, name := row.name, address := row.address, city := row.city
          phone := row.phone, email := row.email, owner_id := row.owner_id
          owner_email := em
          owner_name :=
            (match mn with
             | some s => if s = "" then em else some s
             | none => em)
          stats := statsMap pid
          rooms := q.rooms.data, tenants := q.tenants.data, payments := q.payments.data
          created_at := row.created_at, updated_at := row.updated_at },
        none, false⟩

/-! ### Search filter and recent-activity view -/

/-- `s.toLowerCase()` as a character list. -/
def lowerData (s : String) : List Char :=
  s.data.map Char.toLower

/-- `q` is a prefix of `s` (the anchored step of `String.prototype.includes`). -/
def hasPre : List Char → List Char → Bool
  | _, [] => true
  | [], _ :: _ => false
  | c :: cs, d :: ds => decide (c = d) && hasPre cs ds

/-- `s.includes(q)` on character lists. -/
def strIncl : List Char → List Char → Bool
  | [], q => q.isEmpty
  | c :: cs, q => hasPre (c :: cs) q || strIncl cs q

/-- `field.toLowerCase().includes(q.toLowerCase())`. -/
def ciMatch (q field : String) : Bool :=
  strIncl (lowerData field) (lowerData q)

/-- The predicate of `filteredProperties`: any of the four fields
matches; the optional chains on the owner fields yield `undefined`
(falsy) when the field is absent. -/
def matchesQuery (q : String) (p : PropertyDetails) : Bool :=
  ciMatch q p.name || ciMatch q p.city ||
    (match p.owner_email with
     | some e => ciMatch q e
     | none => false) ||
    (match p.owner_name with
     | some n => ciMatch q n
     | none => false)

/-- `properties.filter(...)`. -/
def filteredProperties (props : List PropertyDetails) (q : String) : List PropertyDetails :=
  props.filter (matchesQuery q)

/-- Newest-first comparison on payments used by the detail query's
`order('created_at', { ascending: false })` clause. -/
def newerFirst (a b : Payment) : Prop :=
  b.created_at ≤ a.created_at

instance : DecidableRel newerFirst := fun a b => Int.decLe b.created_at a.created_at

instance : IsTotal Payment newerFirst :=
  ⟨fun a b => le_total b.created_at a.created_at⟩

instance : IsTrans Payment newerFirst :=
  ⟨fun _ _ _ hab hbc => le_trans hbc hab⟩

/-- Model of the ordered payments query of the detail loader: the rows
sorted descending by `created_at`. -/
def orderByCreatedAtDesc (ps : List Payment) : List Payment :=
  List.insertionSort newerFirst ps

/-- The Recent Activity list rendered by the modal:
`selectedProperty.payments?.slice(0, 5)`. -/
def recentActivity (ps : List Payment) : List Payment :=
  ps.take 5

/-! ### Helper lemmas -/

lemma jsOrQ_some_zero (v : ℚ) : jsOrQ (some v) 0 = v := by
  by_cases h : v = 0 <;> simp [jsOrQ, h]

lemma foldl_status_sum (st : String) (ps : List Payment) (a : ℚ) :
    ps.foldl (fun s p => if p.status = st then s + p.amount else s) a
      = a + ((ps.filter (fun p => decide (p.status = st))).map (fun p => p.amount)).sum := by
  induction ps generalizing a with
  | nil => simp
  | cons p ps ih =>
    by_cases h : p.status = st
    · simp [List.filter_cons, h, ih, add_assoc]
    · simp [List.filter_cons, h, ih]

lemma sumByStatus_eq (st : String) (ps : List Payment) :
    sumByStatus st ps = ((ps.filter (fun p => decide (p.status = st))).map (fun p => p.amount)).sum := by
  simpa [sumByStatus] using foldl_status_sum st ps 0

lemma statusSum_some (st : String) (qs : List Payment) :
    jsOrQ ((some qs).map (sumByStatus st)) 0
      = ((qs.filter (fun p => decide (p.status = st))).map (fun p => p.amount)).sum := by
  simp [jsOrQ_some_zero, sumByStatus_eq]

lemma sumByStatus_cons_ne (st : String) (p : Payment) (ps : List Payment)
    (h : ¬ p.status = st) : sumByStatus st (p :: ps) = sumByStatus st ps := by
  simp [sumByStatus_eq, List.filter_cons, h]

lemma foldl_price_sum (rs : List Room) (a : ℚ) :
    rs.foldl (fun s r => s + r.price) a = a + (rs.map (fun r => r.price)).sum := by
  induction rs generalizing a with
  | nil => simp
  | cons r rs ih => simp [ih, add_assoc]

/-! ### Concrete sample data used by closed theorems -/

/-- A fixed current date for concrete evaluations. -/
def now0 : SimpleDate := ⟨2026, 10, 12⟩

/-- A successful child query with zero rows. -/
def okEmpty {α : Type} : QueryRes (List α) := ⟨some [], none⟩

/-- Child outcomes where every query succeeds with zero rows. -/
def emptyChild : ChildRes := ⟨okEmpty, okEmpty, okEmpty, okEmpty, okEmpty⟩

def room0 : Room := ⟨"occupied", 150⟩

def payPaid : Payment := ⟨"paid", 100, some ⟨2026, 10, 1⟩, 10⟩
def payPend : Payment := ⟨"pending", 40, some ⟨2026, 10, 2⟩, 11⟩
def payOver : Payment := ⟨"overdue", 30, none, 12⟩
def payCanc : Payment := ⟨"cancelled", 70, some ⟨2026, 9, 1⟩, 13⟩

def samplePayments : List Payment := [payPaid, payPend, payOver, payCanc]

/-! ### Claims -/

/-- Claim C1: the claim says a property with 0 inactive and 0 active
tenants gets `tenant_turnover_rate = 0`.  The code disagrees: a
successful inactive-tenants query returns an empty array, which is
truthy, so the guarded branch computes `(0 / (0 + 0)) * 100 = NaN`
(modelled as `none`), and `Math.round(NaN) = NaN` is stored in the
stats record.  This theorem evaluates the code at that failing input. -/
theorem turnover_nan_at_zero_tenants :
    turnoverRate (some []) (some []) = none ∧
    (computeStats now0 "p1" emptyChild).tenant_turnover_rate = none := by
  exact ⟨rfl, rfl⟩

/-- Claim C3: with zero rooms both `occupancy_rate` and `avg_room_price`
are 0 (no division by zero reaches the result: the `NaN` of `0/0` is
swallowed by `|| 0`); with a nonzero room count `occupancy_rate` is the
occupied fraction rounded to the nearest percent and `avg_room_price`
is the arithmetic mean of the room prices. -/
theorem room_stats_claim (rs : List Room) :
    (rs.length = 0 → occupancyRate (some rs) = 0 ∧ avgRoomPrice (some rs) = 0) ∧
    (rs.length ≠ 0 →
      occupancyRate (some rs)
          = jsRound ((((rs.filter (fun r => decide (r.status = "occupied"))).length : ℚ)
              / (rs.length : ℚ)) * 100) ∧
      avgRoomPrice (some rs) = ((rs.map (fun r => r.price)).sum) / (rs.length : ℚ)) := by
  constructor
  · intro h
    have hrs : rs = [] := List.length_eq_zero.mp h
    subst hrs
    exact ⟨rfl, rfl⟩
  · intro h
    constructor
    · have hp : totalRooms (some rs) > 0 := Nat.pos_of_ne_zero h
      unfold occupancyRate
      rw [if_pos hp]
      rfl
    · have h1 : jsDivNat (roomPriceSum (some rs)) (totalRooms (some rs))
          = some (((rs.map (fun r => r.price)).sum) / (rs.length : ℚ)) := by
        simp [roomPriceSum, jsDivNat, totalRooms, foldl_price_sum, h]
      unfold avgRoomPrice
      rw [h1, jsOrQ_some_zero]

/-- Witness for C3 at the concrete inputs `[]` and `[room0]`. -/
theorem room_stats_claim_witness :
    (occupancyRate (some ([] : List Room)) = 0 ∧ avgRoomPrice (some ([] : List Room)) = 0) ∧
    (occupancyRate (some [room0])
        = jsRound (((([room0].filter (fun r => decide (r.status = "occupied"))).length : ℚ)
            / (([room0] : List Room).length : ℚ)) * 100) ∧
      avgRoomPrice (some [room0])
        = (([room0].map (fun r => r.price)).sum) / (([room0] : List Room).length : ℚ)) :=
  ⟨(room_stats_claim []).1 rfl, (room_stats_claim [room0]).2 (by decide)⟩

/-- Claim C4: `total_revenue` sums exactly the payments with status
`paid`, `pending_payments` exactly those with status `pending`,
`overdue_payments` exactly those with status `overdue`, and a payment of
any other status contributes to none of the three sums. -/
theorem payment_status_sums (ps : List Payment) :
    totalRevenue (some ps)
        = ((ps.filter (fun p => decide (p.status = "paid"))).map (fun p => p.amount)).sum ∧
    pendingPayments (some ps)
        = ((ps.filter (fun p => decide (p.status = "pending"))).map (fun p => p.amount)).sum ∧
    overduePayments (some ps)
        = ((ps.filter (fun p => decide (p.status = "overdue"))).map (fun p => p.amount)).sum ∧
    (∀ p : Payment, p.status ≠ "paid" → p.status ≠ "pending" → p.status ≠ "overdue" →
      totalRevenue (some (p :: ps)) = totalRevenue (some ps) ∧
      pendingPayments (some (p :: ps)) = pendingPayments (some ps) ∧
      overduePayments (some (p :: ps)) = overduePayments (some ps)) := by
  refine ⟨statusSum_some "paid" ps, statusSum_some "pending" ps, statusSum_some "overdue" ps, ?_⟩
  intro p h1 h2 h3
  have e1 : sumByStatus "paid" (p :: ps) = sumByStatus "paid" ps :=
    sumByStatus_cons_ne _ _ _ h1
  have e2 : sumByStatus "pending" (p :: ps) = sumByStatus "pending" ps :=
    sumByStatus_cons_ne _ _ _ h2
  have e3 : sumByStatus "overdue" (p :: ps) = sumByStatus "overdue" ps :=
    sumByStatus_cons_ne _ _ _ h3
  exact ⟨by simp [totalRevenue, e1], by simp [pendingPayments, e2],
    by simp [overduePayments, e3]⟩

/-- Witness for C4 at the concrete payment list `samplePayments` and the
off-status payment `payCanc`. -/
theorem payment_status_sums_witness :
    totalRevenue (some samplePayments)
        = ((samplePayments.filter (fun p => decide (p.status = "paid"))).map (fun p => p.amount)).sum ∧
    pendingPayments (some samplePayments)
        = ((samplePayments.filter (fun p => decide (p.status = "pending"))).map (fun p => p.amount)).sum ∧
    overduePayments (some samplePayments)
        = ((samplePayments.filter (fun p => decide (p.status = "overdue"))).map (fun p => p.amount)).sum ∧
    (totalRevenue (some (payCanc :: samplePayments)) = totalRevenue (some samplePayments) ∧
      pendingPayments (some (payCanc :: samplePayments)) = pendingPayments (some samplePayments) ∧
      overduePayments (some (payCanc :: samplePayments)) = overduePayments (some samplePayments)) := by
  have h := payment_status_sums samplePayments
  exact ⟨h.1, h.2.1, h.2.2.1, h.2.2.2 payCanc (by decide) (by decide) (by decide)⟩

/-- Modelled from the spec for comparison with the code (claim C5): the
month-to-date window, i.e. paid payments dated between the first of the
current month and `now` inclusive. -/
def monthToDateRevenue (now : SimpleDate) (ps : List Payment) : ℚ :=
  ((ps.filter (fun p =>
      decide (p.status = "paid") &&
        (match p.date with
         | some d => dateLe (monthStart now) d && dateLe d now
         | none => false))).map (fun p => p.amount)).sum

/-- Modelled from the spec for comparison with the code (claim C5): the
year-to-date window. -/
def yearToDateRevenue (now : SimpleDate) (ps : List Payment) : ℚ :=
  ((ps.filter (fun p =>
      decide (p.status = "paid") &&
        (match p.date with
         | some d => dateLe (yearStart now) d && dateLe d now
         | none => false))).map (fun p => p.amount)).sum

/-- A paid payment dated after `now0` (next month of the same year). -/
def payFuture : Payment := ⟨"paid", 5, some ⟨2026, 11, 1⟩, 20⟩

/-- Claim C5 counterexample: the code's date filter has no upper bound
(`paymentDate >= monthStart` only), so a paid payment dated in a future
month is counted by `monthly_revenue` and `yearly_revenue`, while the
claimed month-to-date / year-to-date sums exclude it. -/
theorem revenue_window_counterexample :
    monthlyRevenue now0 (some [payFuture]) = 5 ∧
    monthToDateRevenue now0 [payFuture] = 0 ∧
    yearlyRevenue now0 (some [payFuture]) = 5 ∧
    yearToDateRevenue now0 [payFuture] = 0 ∧
    monthlyRevenue now0 (some [payFuture]) ≠ monthToDateRevenue now0 [payFuture] := by
  refine ⟨?_, ?_, ?_, ?_, ?_⟩ <;>
    norm_num [monthlyRevenue, yearlyRevenue, monthToDateRevenue, yearToDateRevenue,
      monthlyPayments, yearlyPayments, sumByStatus, payFuture, now0, monthStart,
      yearStart, dateLe, List.filter]

/-- Claim C5 amended: `monthly_revenue` sums the amounts of paid
payments whose date is on or after the first day of the current month
(future-dated payments included), `yearly_revenue` those dated on or
after January the first of the current year; payments without a date are
excluded from both. -/
theorem revenue_window_amended (now : SimpleDate) (ps : List Payment) :
    monthlyRevenue now (some ps)
        = ((ps.filter (fun p =>
            decide (p.status = "paid") &&
              (match p.date with
               | some d => dateLe (monthStart now) d
               | none => false))).map (fun p => p.amount)).sum ∧
    yearlyRevenue now (some ps)
        = ((ps.filter (fun p =>
            decide (p.status = "paid") &&
              (match p.date with
               | some d => dateLe (yearStart now) d
               | none => false))).map (fun p => p.amount)).sum := by
  have e : ∀ startD : SimpleDate,
      sumByStatus "paid"
          (ps.filter (fun p =>
            match p.date with
            | some d => dateLe startD d
            | none => false))
        = ((ps.filter (fun p =>
            decide (p.status = "paid") &&
              (match p.date with
               | some d => dateLe startD d
               | none => false))).map (fun p => p.amount)).sum := by
    intro startD
    rw [sumByStatus_eq, List.filter_filter]
  exact ⟨e (monthStart now), e (yearStart now)⟩

lemma hasPre_iff (s q : List Char) : hasPre s q = true ↔ ∃ r, s = q ++ r := by
  induction q generalizing s with
  | nil => simp [hasPre]
  | cons d ds ih =>
    cases s with
    | nil => simp [hasPre]
    | cons c cs =>
      rw [hasPre]
      simp only [Bool.and_eq_true, decide_eq_true_eq, ih, List.cons_append,
        List.cons.injEq]
      constructor
      · rintro ⟨rfl, r, rfl⟩
        exact ⟨r, rfl, rfl⟩
      · rintro ⟨r, rfl, h⟩
        exact ⟨rfl, r, h⟩

lemma strIncl_iff (s q : List Char) : strIncl s q = true ↔ ∃ l r, s = l ++ q ++ r := by
  induction s with
  | nil =>
    rw [strIncl]
    simp only [List.isEmpty_iff]
    constructor
    · rintro rfl
      exact ⟨[], [], rfl⟩
    · rintro ⟨l, r, h⟩
      rcases List.append_eq_nil.mp h.symm with ⟨h1, -⟩
      exact (List.append_eq_nil.mp h1).2
  | cons c cs ih =>
    rw [strIncl]
    simp only [Bool.or_eq_true, ih, hasPre_iff]
    constructor
    · rintro (⟨r, h⟩ | ⟨l, r, h⟩)
      · exact ⟨[], r, by simpa using h⟩
      · exact ⟨c :: l, r, by simp [h]⟩
    · rintro ⟨l, r, h⟩
      cases l with
      | nil =>
        left
        exact ⟨r, by simpa using h⟩
      | cons x xs =>
        right
        have hx : c = x ∧ cs = xs ++ q ++ r := by simpa using h
        exact ⟨xs, r, hx.2⟩

/-- Claim C6: a property is in the filtered result exactly when the
query is a case-insensitive substring (in the `toLowerCase` sense) of
its name, city, owner email or owner name. -/
theorem search_filter_iff (props : List PropertyDetails) (q : String) (p : PropertyDetails)
    (oe ow : String) (he : p.owner_email = some oe) (hn : p.owner_name = some ow) :
    p ∈ filteredProperties props q ↔
      p ∈ props ∧
        ((∃ l r, lowerData p.name = l ++ lowerData q ++ r) ∨
         (∃ l r, lowerData p.city = l ++ lowerData q ++ r) ∨
         (∃ l r, lowerData oe = l ++ lowerData q ++ r) ∨
         (∃ l r, lowerData ow = l ++ lowerData q ++ r)) := by
  rw [filteredProperties, List.mem_filter]
  apply and_congr_right
  intro _
  simp only [matchesQuery, he, hn, Bool.or_eq_true, ciMatch, strIncl_iff, or_assoc]

/-- Witness for C6 at a concrete one-property list and the query
`"BAND"` (matching the city `"Bandung"` case-insensitively). -/
def prop0 : PropertyDetails :=
  { id := "p1", name := "Kos A", address := "Jl 1", city := "Bandung", phone := "08"
    email := "a@b", owner_id := "u1", owner_email := some "Unknown"
    owner_name := some "admin", stats := none, rooms := none, tenants := none
    payments := none, created_at := "2024", updated_at := "2024" }

theorem search_filter_iff_witness :
    prop0.owner_email = some "Unknown" ∧ prop0.owner_name = some "admin" ∧
    (prop0 ∈ filteredProperties [prop0] "BAND" ↔
      prop0 ∈ [prop0] ∧
        ((∃ l r, lowerData prop0.name = l ++ lowerData "BAND" ++ r) ∨
         (∃ l r, lowerData prop0.city = l ++ lowerData "BAND" ++ r) ∨
         (∃ l r, lowerData "Unknown" = l ++ lowerData "BAND" ++ r) ∨
         (∃ l r, lowerData "admin" = l ++ lowerData "BAND" ++ r))) :=
  ⟨rfl, rfl, search_filter_iff [prop0] "BAND" prop0 "Unknown" "admin" rfl rfl⟩

/-- Claim C7: the detail loader's payments arrive ordered newest-first
(descending `created_at`, the modelled semantics of the query's order
clause), and the Recent Activity list takes the first 5 of that order:
it has at most 5 entries and every displayed payment is at least as
recent as every payment beyond the first 5. -/
theorem recent_activity_top5 (ps : List Payment) :
    (orderByCreatedAtDesc ps).Perm ps ∧
    List.Pairwise newerFirst (orderByCreatedAtDesc ps) ∧
    recentActivity (orderByCreatedAtDesc ps) = (orderByCreatedAtDesc ps).take 5 ∧
    (recentActivity (orderByCreatedAtDesc ps)).length ≤ 5 ∧
    ∀ x ∈ recentActivity (orderByCreatedAtDesc ps),
      ∀ y ∈ (orderByCreatedAtDesc ps).drop 5, y.created_at ≤ x.created_at := by
  refine ⟨List.perm_insertionSort _ _, List.sorted_insertionSort _ _, rfl, ?_, ?_⟩
  · exact List.length_take_le 5 (orderByCreatedAtDesc ps)
  · intro x hx y hy
    have hs : List.Pairwise newerFirst
        ((orderByCreatedAtDesc ps).take 5 ++ (orderByCreatedAtDesc ps).drop 5) := by
      rw [List.take_append_drop]
      exact List.sorted_insertionSort _ _
    exact (List.pairwise_append.mp hs).2.2 x hx y hy

/-! ### Fixtures for the loader claims -/

def prow0 : PropertyRow := ⟨"p1", "Kos A", "Jl 1", "Bandung", "08", "a@b", "u1", "2024", "2024"⟩

def urow0 : BUser := ⟨"u1", "admin"⟩

/-- A backoffice user whose `role` is the empty string. -/
def urowEmptyRole : BUser := ⟨"u1", ""⟩

/-- Child outcomes whose rooms query fails (its `error` is set and its
`data` is `null`) while the other four succeed with zero rows. -/
def childFail : ChildRes := ⟨⟨none, some "boom"⟩, okEmpty, okEmpty, okEmpty, okEmpty⟩

def detailRow0 : DetailRow :=
  ⟨"p1", "Kos A", "Jl 1", "Bandung", "08", "a@b", "u1", "2024", "2024",
    some ⟨some "o@b", some "Owner"⟩⟩

def initDetail : DetailState := ⟨none, none, true⟩

/-- Claim C2 counterexample: with one property whose rooms query fails
(and every other query succeeding), the load does not abort: no error
message is surfaced, the property list is committed, and a stats record
is still computed and kept for that property.  Only the two top-level
queries can abort the load; the per-property child queries never do,
because their `error` fields are never read. -/
theorem load_abort_counterexample :
    (loadProperties now0 initialLoadState ⟨some [prow0], none⟩ ⟨some [urow0], none⟩
        (fun _ => childFail)).error = none ∧
    (loadProperties now0 initialLoadState ⟨some [prow0], none⟩ ⟨some [urow0], none⟩
        (fun _ => childFail)).properties ≠ [] ∧
    (loadProperties now0 initialLoadState ⟨some [prow0], none⟩ ⟨some [urow0], none⟩
        (fun _ => childFail)).stats "p1" = some (computeStats now0 "p1" childFail) ∧
    childFail.rooms.error ≠ none := by
  refine ⟨rfl, ?_, ?_, by simp [childFail]⟩
  · simp [loadProperties]
  · simp [loadProperties, prow0]

/-- Claim C2 amended: only a failure of the top-level `properties` or
`backoffice_users` query aborts the load, surfacing the generic message
and leaving the previously stored list and stats untouched; when both
top-level queries succeed, the load commits the owner-mapped list and a
stats entry for every listed property id without error, whatever the
outcomes of the per-property child queries (their failures are ignored
and their missing data treated as absent). -/
theorem load_abort_amended (now : SimpleDate) (init : LoadState)
    (propsRes : QueryRes (List PropertyRow)) (usersRes : QueryRes (List BUser))
    (fetch : String → ChildRes) :
    ((propsRes.error ≠ none ∨ usersRes.error ≠ none) →
      loadProperties now init propsRes usersRes fetch
        = { init with error := some "Failed to load properties", isLoading := false }) ∧
    (propsRes.error = none → usersRes.error = none →
      (loadProperties now init propsRes usersRes fetch).error = none ∧
      (loadProperties now init propsRes usersRes fetch).properties
          = (propsRes.data.getD []).map (withOwner usersRes.data) ∧
      ∀ pid : String,
        ((propsRes.data.getD []).any (fun p => decide (p.id = pid))) = true →
          (loadProperties now init propsRes usersRes fetch).stats pid
            = some (computeStats now pid (fetch pid))) := by
  constructor
  · intro h
    cases hp : propsRes.error with
    | some e => simp [loadProperties, hp]
    | none =>
      cases hu : usersRes.error with
      | some e => simp [loadProperties, hp, hu]
      | none => simp_all
  · intro hp hu
    have hred : loadProperties now init propsRes usersRes fetch =
        { properties := (propsRes.data.getD []).map (withOwner usersRes.data)
          stats := fun pid =>
            if (propsRes.data.getD []).any (fun p => decide (p.id = pid)) then
              some (computeStats now pid (fetch pid))
            else none
          error := none
          isLoading := false } := by
      simp [loadProperties, hp, hu]
    refine ⟨by rw [hred], by rw [hred], ?_⟩
    intro pid hpid
    rw [hred]
    simp [hpid]

/-- Witness for the amended C2 at a concrete failing top-level query. -/
theorem load_abort_amended_witness :
    ((⟨none, some "boom"⟩ : QueryRes (List PropertyRow)).error ≠ none ∨
      (okEmpty : QueryRes (List BUser)).error ≠ none) ∧
    loadProperties now0 initialLoadState ⟨none, some "boom"⟩ okEmpty (fun _ => emptyChild)
      = { initialLoadState with
            error := some "Failed to load properties", isLoading := false } :=
  ⟨Or.inl (by simp),
    (load_abort_amended now0 initialLoadState ⟨none, some "boom"⟩ okEmpty
      (fun _ => emptyChild)).1 (Or.inl (by simp))⟩

/-- Claim C8: if any of the detail loader's four queries fails, the
selection is cleared, the generic message is surfaced and the loading
flag is cleared. -/
theorem detail_failure_clears (statsMap : String → Option PropertyStats) (pid : String)
    (q : DetailQueries) (init : DetailState)
    (h : q.property.error ≠ none ∨ q.rooms.error ≠ none ∨ q.tenants.error ≠ none ∨
      q.payments.error ≠ none) :
    loadPropertyDetails statsMap pid q init
      = ⟨none, some "Failed to load property details", false⟩ := by
  by_cases h1 : q.property.error.isSome <;>
    by_cases h2 : q.rooms.error.isSome <;>
      by_cases h3 : q.tenants.error.isSome <;>
        by_cases h4 : q.payments.error.isSome <;>
          simp_all [loadPropertyDetails, Option.isSome_iff_ne_none]

/-- Witness for C8 at a concrete failing rooms query. -/
def detailQFail : DetailQueries := ⟨⟨some detailRow0, none⟩, ⟨none, some "boom"⟩, okEmpty, okEmpty⟩

theorem detail_failure_clears_witness :
    (detailQFail.property.error ≠ none ∨ detailQFail.rooms.error ≠ none ∨
      detailQFail.tenants.error ≠ none ∨ detailQFail.payments.error ≠ none) ∧
    loadPropertyDetails (fun _ => none) "p1" detailQFail initDetail
      = ⟨none, some "Failed to load property details", false⟩ :=
  ⟨Or.inr (Or.inl (by simp [detailQFail])),
    detail_failure_clears (fun _ => none) "p1" detailQFail initDetail
      (Or.inr (Or.inl (by simp [detailQFail])))⟩

/-- Claim C9: on a successful detail load, the stats field attached to
the selected property is exactly the entry the list load computed for
that property id — the list-time child rows fetched via `fetch` — and
not a recomputation from the detail queries' re-fetched rooms, tenants
or payments (which are arbitrary here). -/
theorem stats_reuse (now : SimpleDate) (init : LoadState) (pr : List PropertyRow)
    (users : List BUser) (fetch : String → ChildRes) (pid : String)
    (q : DetailQueries) (row : DetailRow) (dInit : DetailState)
    (hqp : q.property = ⟨some row, none⟩) (hr : q.rooms.error = none)
    (ht : q.tenants.error = none) (hp : q.payments.error = none)
    (hmem : (pr.any (fun p => decide (p.id = pid))) = true) :
    ((loadPropertyDetails
        (loadProperties now init ⟨some pr, none⟩ ⟨some users, none⟩ fetch).stats
        pid q dInit).selectedProperty.map (fun sp => sp.stats))
      = some ((loadProperties now init ⟨some pr, none⟩ ⟨some users, none⟩ fetch).stats pid) ∧
    (loadProperties now init ⟨some pr, none⟩ ⟨some users, none⟩ fetch).stats pid
      = some (computeStats now pid (fetch pid)) := by
  constructor
  · unfold loadPropertyDetails
    rw [hqp]
    simp [hr, ht, hp]
  · exact if_pos hmem

/-- Witness for C9 at concrete list and detail inputs. -/
def detailQOk : DetailQueries := ⟨⟨some detailRow0, none⟩, okEmpty, okEmpty, okEmpty⟩

theorem stats_reuse_witness :
    (detailQOk.property = (⟨some detailRow0, none⟩ : QueryRes DetailRow) ∧
      detailQOk.rooms.error = none ∧ detailQOk.tenants.error = none ∧
      detailQOk.payments.error = none ∧
      ([prow0].any (fun p => decide (p.id = "p1"))) = true) ∧
    ((loadPropertyDetails
        (loadProperties now0 initialLoadState ⟨some [prow0], none⟩ ⟨some [urow0], none⟩
          (fun _ => emptyChild)).stats
        "p1" detailQOk initDetail).selectedProperty.map (fun sp => sp.stats))
      = some ((loadProperties now0 initialLoadState ⟨some [prow0], none⟩
          ⟨some [urow0], none⟩ (fun _ => emptyChild)).stats "p1") ∧
    (loadProperties now0 initialLoadState ⟨some [prow0], none⟩ ⟨some [urow0], none⟩
        (fun _ => emptyChild)).stats "p1"
      = some (computeStats now0 "p1" emptyChild) := by
  have h := stats_reuse now0 initialLoadState [prow0] [urow0] (fun _ => emptyChild)
    "p1" detailQOk detailRow0 initDetail rfl rfl rfl rfl (by decide)
  exact ⟨⟨rfl, rfl, rfl, rfl, by decide⟩, h.1, h.2⟩

/-- Claim C10 counterexample: the claim says `owner_name` is the
matching backoffice user's role whenever such a user exists; but the
code computes `role || 'Unknown'`, so a matching user with the empty
string as role yields `'Unknown'`, not the role. -/
theorem owner_fields_counterexample :
    ((loadProperties now0 initialLoadState ⟨some [prow0], none⟩
        ⟨some [urowEmptyRole], none⟩ (fun _ => emptyChild)).properties.map
          (fun p => p.owner_name)) = [some "Unknown"] ∧
    urowEmptyRole.user_id = prow0.owner_id ∧ urowEmptyRole.role = "" ∧
    ("Unknown" : String) ≠ "" := by
  refine ⟨?_, rfl, rfl, by decide⟩
  simp [loadProperties, withOwner, jsOrStr, urowEmptyRole, prow0]

/-- Claim C10 amended: in every successfully loaded property list,
`owner_email` is the constant `'Unknown'` (the cross-reference selects
only `user_id` and `role`, so the `email` read during mapping is always
`undefined`), and `owner_name` is the matching backoffice user's role
when that role is a non-empty string, and `'Unknown'` when there is no
matching user or the role is the empty string. -/
theorem owner_fields_amended (now : SimpleDate) (init : LoadState) (pr : List PropertyRow)
    (users : List BUser) (fetch : String → ChildRes) (p : PropertyDetails)
    (hp : p ∈ (loadProperties now init ⟨some pr, none⟩ ⟨some users, none⟩ fetch).properties) :
    p.owner_email = some "Unknown" ∧
    ∃ prow, prow ∈ pr ∧ p = withOwner (some users) prow ∧
      (users.find? (fun u => decide (u.user_id = prow.owner_id)) = none →
        p.owner_name = some "Unknown") ∧
      (∀ u, users.find? (fun u => decide (u.user_id = prow.owner_id)) = some u →
        p.owner_name = some (if u.role = "" then "Unknown" else u.role)) := by
  have hp' : p ∈ pr.map (withOwner (some users)) := by
    simpa [loadProperties] using hp
  rcases List.mem_map.mp hp' with ⟨prow, hmem, rfl⟩
  refine ⟨rfl, prow, hmem, rfl, ?_, ?_⟩
  · intro hfind
    simp [withOwner, hfind, jsOrStr]
  · intro u hfind
    simp [withOwner, hfind, jsOrStr]

/-- Witness for the amended C10 at a concrete loaded list. -/
theorem owner_fields_amended_witness :
    (withOwner (some [urow0]) prow0) ∈
      (loadProperties now0 initialLoadState ⟨some [prow0], none⟩ ⟨some [urow0], none⟩
        (fun _ => emptyChild)).properties ∧
    ((withOwner (some [urow0]) prow0).owner_email = some "Unknown" ∧
      ∃ prow, prow ∈ [prow0] ∧
        withOwner (some [urow0]) prow0 = withOwner (some [urow0]) prow ∧
        ([urow0].find? (fun u => decide (u.user_id = prow.owner_id)) = none →
          (withOwner (some [urow0]) prow0).owner_name = some "Unknown") ∧
        (∀ u, [urow0].find? (fun u => decide (u.user_id = prow.owner_id)) = some u →
          (withOwner (some [urow0]) prow0).owner_name
            = some (if u.role = "" then "Unknown" else u.role))) := by
  have hmem : (withOwner (some [urow0]) prow0) ∈
      (loadProperties now0 initialLoadState ⟨some [prow0], none⟩ ⟨some [urow0], none⟩
        (fun _ => emptyChild)).properties := by
    simp [loadProperties]
  exact ⟨hmem, owner_fields_amended now0 initialLoadState [prow0] [urow0]
    (fun _ => emptyChild) _ hmem⟩

end KostProps
